import Mathlib

/-!
Shallow embedding of the run-lifecycle and statistics core of the
icon-rendering benchmark harness (run-id.js, run-record.js, run-handle.js,
suite-runner.js, the RunStateStore of system-specs.js, and the statistics
methods of the StressTestManager).

Modelling conventions:
* JavaScript's dynamically-typed values appearing in free-form fields are
  modelled by the inductive `JVal`; absent object properties (undefined)
  are modelled by `Option`.
* JavaScript truthiness is modelled field-by-field: an empty string, the
  number 0, null and undefined are falsy; arrays and objects are truthy.
* `Date.now()` and `Math.random()` inside the id generator are modelled by
  an explicit `IdDraw` (timestamp string, random suffix string) supplied by
  the environment; an `IdSupply` carries one draw per generator.
* IEEE-754 arithmetic is modelled exactly over ℚ extended with NaN and the
  two infinities (`JSNum`); `Math.sqrt` and `Math.exp` at positive finite
  arguments are modelled by environment parameters `msqrt`, `mexp : ℚ → ℚ`
  (every double is a rational, and the claims settled here do not depend
  on their values), while their exact IEEE cases (NaN, infinities, 0 and
  negative arguments) are built in.
* Thrown JavaScript errors are modelled with `Except String`.
-/

namespace IconBench

/-- A JavaScript (JSON-like) value, used for the free-form fields that the
RunRecord factory carries through verbatim and for the unvalidated
`active` field. -/
inductive JVal where
  | jnull
  | jbool (b : Bool)
  | jnum (q : ℚ)
  | jstr (s : String)
  | jarr (xs : List JVal)
  | jobj (fs : List (String × JVal))

/-- JavaScript truthiness of a `JVal` (NaN never occurs in these
free-form fields in the modelled paths). -/
def JVal.truthy : JVal → Bool
  | .jnull => false
  | .jbool b => b
  | .jnum q => decide (q ≠ 0)
  | .jstr s => decide (s ≠ "")
  | .jarr _ => true
  | .jobj _ => true

/-- `o || d` for a possibly-undefined string: an absent or empty string
falls back to the default. -/
def strOr (o : Option String) (d : String) : String :=
  match o with
  | some s => if s = "" then d else s
  | none => d

/-- JavaScript truthiness of a possibly-undefined string. -/
def strTruthy (o : Option String) : Bool :=
  match o with
  | some s => decide (s ≠ "")
  | none => false

/-- `o || null` for a possibly-undefined string. -/
def strOrNull (o : Option String) : Option String :=
  match o with
  | some s => if s = "" then none else some s
  | none => none

/-- JavaScript truthiness of a possibly-undefined number. -/
def numTruthy (o : Option ℚ) : Bool :=
  match o with
  | some q => decide (q ≠ 0)
  | none => false

/-- `o || null` for a possibly-undefined number (0 is falsy). -/
def numOrNull (o : Option ℚ) : Option ℚ :=
  match o with
  | some q => if q = 0 then none else some q
  | none => none

/-- `o || d` for a possibly-undefined `JVal`. -/
def jvOr (o : Option JVal) (d : JVal) : JVal :=
  match o with
  | some v => if v.truthy then v else d
  | none => d

/-- Property access `v[k]` on a `JVal` (undefined unless an object with
the key). -/
def jvGet (v : JVal) (k : String) : Option JVal :=
  match v with
  | .jobj fs => fs.lookup k
  | _ => none

/-- Models `o && o.k` for a string-valued property: the guarded property
access used by the import normalizer's legacy back-fills. -/
def jvGetStr (o : Option JVal) (k : String) : Option String :=
  match o with
  | some v =>
      if v.truthy then
        match jvGet v k with
        | some (.jstr s) => some s
        | _ => none
      else none
  | none => none

/-- Models `o && o.k` for a numeric property. -/
def jvGetNum (o : Option JVal) (k : String) : Option ℚ :=
  match o with
  | some v =>
      if v.truthy then
        match jvGet v k with
        | some (.jnum q) => some q
        | _ => none
      else none
  | none => none

/-! ## run-id.js — id generation

`_id(prefix)` concatenates a prefix, `Date.now().toString(36)` and a
random base-36 suffix. The timestamp and random suffix are environment
inputs, modelled as an explicit draw. -/

/-- One draw of the id generator's environment: the base-36 timestamp and
the random suffix. -/
structure IdDraw where
  ts : String
  rnd : String

/-- `_id(prefix)` from run-id.js, with the environment draw explicit. -/
def mkId (pfx : String) (d : IdDraw) : String :=
  pfx ++ "_" ++ d.ts ++ "_" ++ d.rnd

/-- One draw per generator, enough for one call of the RunRecord factory
(which mints at most one id of each scope). -/
structure IdSupply where
  trDraw : IdDraw
  runDraw : IdDraw
  suiteDraw : IdDraw

/-- `generateRunId()` from run-id.js. -/
def generateRunId (g : IdSupply) : String := mkId "run" g.runDraw

/-- `generateSuiteRunId()` from run-id.js. -/
def generateSuiteRunId (g : IdSupply) : String := mkId "suite" g.suiteDraw

/-- `generateTestResultId()` from run-id.js. -/
def generateTestResultId (g : IdSupply) : String := mkId "tr" g.trDraw

/-! ## run-record.js — RunRecord factory and import normalizer -/

/-- `SCHEMA_VERSION` from run-record.js. -/
def SCHEMA_VERSION : ℕ := 2

/-- `VALID_FORMATS` from run-record.js. -/
def VALID_FORMATS : List String :=
  ["css", "svg", "png", "gif", "jpeg", "webp", "avif"]

/-- `VALID_SOURCES` from run-record.js. -/
def VALID_SOURCES : List String := ["local", "imported"]

/-- The `fields` argument of `createRunRecord` — every property may be
absent (undefined). -/
structure RunRecFields where
  testResultId : Option String := none
  runId : Option String := none
  suiteRunId : Option String := none
  format : Option String := none
  src : Option String := none
  importedFileName : Option String := none
  active : Option JVal := none
  startTime : Option String := none
  endTime : Option String := none
  durationMs : Option ℚ := none
  testType : Option String := none
  iterations : Option ℚ := none
  testDuration : Option ℚ := none
  results : Option JVal := none
  statisticalAnalysis : Option JVal := none
  performanceRanking : Option JVal := none
  testMetadata : Option JVal := none
  testConfiguration : Option JVal := none
  systemSpecifications : Option JVal := none

/-- A constructed RunRecord (the return shape of `createRunRecord`).
`src` models the JS property `source`; `none` models `null`. The `active`
field is a raw `JVal` because the factory stores whatever was supplied. -/
structure RunRecordJS where
  schemaVersion : ℕ
  testResultId : String
  runId : String
  suiteRunId : String
  format : String
  src : String
  importedFileName : Option String
  active : JVal
  startTime : Option String
  endTime : Option String
  durationMs : Option ℚ
  testType : Option String
  iterations : Option ℚ
  testDuration : Option ℚ
  results : JVal
  statisticalAnalysis : JVal
  performanceRanking : JVal
  testMetadata : JVal
  testConfiguration : JVal
  systemSpecifications : JVal

/-- `createRunRecord(fields)` from run-record.js: validates `format` and
`source` when truthy, then fills every field with its default. -/
def createRunRecord (g : IdSupply) (fields : RunRecFields) :
    Except String RunRecordJS :=
  if strTruthy fields.format && !(VALID_FORMATS.contains (strOr fields.format "")) then
    .error ("Invalid format: " ++ strOr fields.format "" ++
      ". Must be one of: css, svg, png, gif, jpeg, webp, avif")
  else if strTruthy fields.src && !(VALID_SOURCES.contains (strOr fields.src "")) then
    .error ("Invalid source: " ++ strOr fields.src "" ++
      ". Must be one of: local, imported")
  else
    .ok {
      schemaVersion := SCHEMA_VERSION
      testResultId := strOr fields.testResultId (generateTestResultId g)
      runId := strOr fields.runId (generateRunId g)
      suiteRunId := strOr fields.suiteRunId (generateSuiteRunId g)
      format := strOr fields.format "css"
      src := strOr fields.src "local"
      importedFileName := strOrNull fields.importedFileName
      active := match fields.active with
        | some v => v
        | none => .jbool true
      startTime := strOrNull fields.startTime
      endTime := strOrNull fields.endTime
      durationMs := numOrNull fields.durationMs
      testType := strOrNull fields.testType
      iterations := numOrNull fields.iterations
      testDuration := numOrNull fields.testDuration
      results := jvOr fields.results (.jobj [])
      statisticalAnalysis := jvOr fields.statisticalAnalysis (.jobj [])
      performanceRanking := jvOr fields.performanceRanking (.jarr [])
      testMetadata := jvOr fields.testMetadata (.jobj [])
      testConfiguration := jvOr fields.testConfiguration (.jobj [])
      systemSpecifications := jvOr fields.systemSpecifications (.jobj []) }

/-- The raw JSON object handed to `normalizeImportedRecord` — every
property may be absent. -/
structure RawRecord where
  testResultId : Option String := none
  runId : Option String := none
  suiteRunId : Option String := none
  format : Option String := none
  active : Option JVal := none
  startTime : Option String := none
  testStartedAt : Option String := none
  endTime : Option String := none
  testCompletedAt : Option String := none
  durationMs : Option ℚ := none
  testDurationSeconds : Option ℚ := none
  testType : Option String := none
  iterations : Option ℚ := none
  testDuration : Option ℚ := none
  results : Option JVal := none
  statisticalAnalysis : Option JVal := none
  performanceRanking : Option JVal := none
  testMetadata : Option JVal := none
  testConfiguration : Option JVal := none
  systemSpecifications : Option JVal := none

/-- `normalizeImportedRecord(raw, fileName)` from run-record.js: maps
legacy field names onto the canonical shape, forces `source`
to "imported", stamps the file name, always mints a fresh
`testResultId`, and delegates to `createRunRecord`. -/
def normalizeImportedRecord (g : IdSupply) (raw : RawRecord)
    (fileName : String) : Except String RunRecordJS :=
  createRunRecord g {
    testResultId := some (generateTestResultId g)
    runId := some (strOr raw.runId (generateRunId g))
    suiteRunId := some (strOr raw.suiteRunId (generateSuiteRunId g))
    format := strOrNull raw.format
    src := some "imported"
    importedFileName := some fileName
    active := some (match raw.active with
      | some v => v
      | none => .jbool true)
    startTime := strOrNull (if strTruthy raw.startTime then raw.startTime else raw.testStartedAt)
    endTime := strOrNull (if strTruthy raw.endTime then raw.endTime else raw.testCompletedAt)
    durationMs :=
      if numTruthy raw.durationMs then raw.durationMs
      else match raw.testDurationSeconds with
        | some q => if q = 0 then none else some (q * 1000)
        | none => none
    testType :=
      if strTruthy raw.testType then raw.testType
      else jvGetStr raw.testConfiguration "testType"
    iterations :=
      if numTruthy raw.iterations then raw.iterations
      else jvGetNum raw.testConfiguration "iterations"
    testDuration := numOrNull raw.testDuration
    results := some (jvOr raw.results (.jobj []))
    statisticalAnalysis := some (jvOr raw.statisticalAnalysis (.jobj []))
    performanceRanking := some (jvOr raw.performanceRanking (.jarr []))
    testMetadata := some (jvOr raw.testMetadata (.jobj []))
    testConfiguration := some (jvOr raw.testConfiguration (.jobj []))
    systemSpecifications := some (jvOr raw.systemSpecifications (.jobj [])) }

/-! ## JavaScript number model

IEEE-754 doubles are modelled exactly: a value is either NaN, ±Infinity,
or a rational. The arithmetic used on the claim-relevant paths is exact
in IEEE doubles (signed zeros are not distinguished; `Math.sqrt` and
`Math.exp` at positive finite arguments are environment parameters). -/

/-- A JavaScript number: NaN, +Infinity, -Infinity, or a finite value. -/
inductive JSNum where
  | nan
  | inf
  | ninf
  | val (q : ℚ)
deriving DecidableEq

/-- JavaScript addition. -/
def jsAdd : JSNum → JSNum → JSNum
  | .nan, _ => .nan
  | _, .nan => .nan
  | .inf, .ninf => .nan
  | .ninf, .inf => .nan
  | .inf, _ => .inf
  | _, .inf => .inf
  | .ninf, _ => .ninf
  | _, .ninf => .ninf
  | .val a, .val b => .val (a + b)

/-- JavaScript unary minus. -/
def jsNeg : JSNum → JSNum
  | .nan => .nan
  | .inf => .ninf
  | .ninf => .inf
  | .val a => .val (-a)

/-- JavaScript subtraction. -/
def jsSub (a b : JSNum) : JSNum := jsAdd a (jsNeg b)

/-- JavaScript multiplication. -/
def jsMul : JSNum → JSNum → JSNum
  | .nan, _ => .nan
  | _, .nan => .nan
  | .inf, .inf => .inf
  | .inf, .ninf => .ninf
  | .ninf, .inf => .ninf
  | .ninf, .ninf => .inf
  | .inf, .val b => if b = 0 then .nan else if 0 < b then .inf else .ninf
  | .val a, .inf => if a = 0 then .nan else if 0 < a then .inf else .ninf
  | .ninf, .val b => if b = 0 then .nan else if 0 < b then .ninf else .inf
  | .val a, .ninf => if a = 0 then .nan else if 0 < a then .ninf else .inf
  | .val a, .val b => .val (a * b)

/-- JavaScript division (0/0 = NaN, x/0 = ±Infinity for x ≠ 0; signed
zeros are not distinguished). -/
def jsDiv : JSNum → JSNum → JSNum
  | .nan, _ => .nan
  | _, .nan => .nan
  | .inf, .inf => .nan
  | .inf, .ninf => .nan
  | .ninf, .inf => .nan
  | .ninf, .ninf => .nan
  | .inf, .val b => if b < 0 then .ninf else .inf
  | .ninf, .val b => if b < 0 then .inf else .ninf
  | .val _, .inf => .val 0
  | .val _, .ninf => .val 0
  | .val a, .val b =>
      if b = 0 then (if a = 0 then .nan else if 0 < a then .inf else .ninf)
      else .val (a / b)

/-- `Math.abs`. -/
def jsAbs : JSNum → JSNum
  | .nan => .nan
  | .inf => .inf
  | .ninf => .inf
  | .val a => .val |a|

/-- The comparison `a >= b` (false whenever NaN is involved). -/
def jsGe : JSNum → JSNum → Bool
  | .nan, _ => false
  | _, .nan => false
  | .inf, _ => true
  | _, .inf => false
  | _, .ninf => true
  | .ninf, _ => false
  | .val a, .val b => decide (b ≤ a)

/-- `Math.max` (NaN-propagating). -/
def jsMax : JSNum → JSNum → JSNum
  | .nan, _ => .nan
  | _, .nan => .nan
  | .inf, _ => .inf
  | _, .inf => .inf
  | .ninf, b => b
  | a, .ninf => a
  | .val a, .val b => .val (max a b)

/-- `Math.min` (NaN-propagating). -/
def jsMin : JSNum → JSNum → JSNum
  | .nan, _ => .nan
  | _, .nan => .nan
  | .ninf, _ => .ninf
  | _, .ninf => .ninf
  | .inf, b => b
  | a, .inf => a
  | .val a, .val b => .val (min a b)

/-- The environment's `Math.sqrt` and `Math.exp` restricted to positive
finite arguments (every IEEE double is rational; the claims settled here
do not depend on the values these return there). -/
structure MathEnv where
  sqrtq : ℚ → ℚ
  expq : ℚ → ℚ

/-- `Math.sqrt` (exact IEEE cases for NaN, infinities, 0 and negative
arguments are built in). -/
def jsSqrt (env : MathEnv) : JSNum → JSNum
  | .nan => .nan
  | .inf => .inf
  | .ninf => .nan
  | .val q => if q < 0 then .nan else if q = 0 then .val 0 else .val (env.sqrtq q)

/-- `Math.exp` (exact IEEE cases for NaN and the infinities built in). -/
def jsExp (env : MathEnv) : JSNum → JSNum
  | .nan => .nan
  | .inf => .inf
  | .ninf => .val 0
  | .val q => .val (env.expq q)

/-! ## Statistics methods of the StressTestManager -/

/-- The simplified 95% t-table of `getTCritical`, in loop order. The
final `Infinity` entry (value 1.960) and the post-loop fallback (1.960)
coincide and are modelled together by the `none` case of the lookup. -/
def tTable : List (ℚ × ℚ) :=
  [(1, 12.706), (5, 2.571), (10, 2.228), (20, 2.086), (30, 2.042),
   (40, 2.021), (50, 2.009), (60, 2.000), (100, 1.984), (500, 1.965),
   (1000, 1.962)]

/-- `getTCritical(df, alpha)`: first table breakpoint that is ≥ df,
else 1.960 (the Infinity entry / fallback). -/
def getTCritical (df _alpha : ℚ) : ℚ :=
  match tTable.find? (fun p => decide (df ≤ p.1)) with
  | some p => p.2
  | none => 1.960

/-- The nested `confidenceInterval` object of `calculateArrayStats`. -/
structure ConfInterval where
  lower : JSNum
  upper : JSNum
deriving DecidableEq

/-- The return shape of `calculateArrayStats`. `sampleSize` is an
`Option` because the empty-input branch returns an object without that
property (reading it yields undefined). -/
structure ArrayStats where
  min : JSNum
  max : JSNum
  average : JSNum
  stdDev : JSNum
  median : JSNum
  standardError : JSNum
  confidenceInterval : ConfInterval
  sampleSize : Option JSNum
deriving DecidableEq

/-- `calculateArrayStats(values)` from the StressTestManager: descriptive
statistics with a 95% t-confidence interval. Sample inputs are finite
numbers; the float sums/means are modelled exactly over ℚ. The sample
variance divides by n − 1, which for n = 1 is the IEEE division 0/0. -/
def calculateArrayStats (env : MathEnv) (values : List ℚ) : ArrayStats :=
  if values.length = 0 then
    { min := .val 0, max := .val 0, average := .val 0, stdDev := .val 0,
      median := .val 0, standardError := .val 0,
      confidenceInterval := { lower := .val 0, upper := .val 0 },
      sampleSize := none }
  else
    let sorted := values.mergeSort (fun a b => decide (a ≤ b))
    let sum : ℚ := values.foldl (· + ·) 0
    let n : ℚ := values.length
    let average : ℚ := sum / n
    let varNum : ℚ := values.foldl (fun acc v => acc + (v - average) ^ 2) 0
    let variance : JSNum := jsDiv (.val varNum) (.val (n - 1))
    let stdDev : JSNum := jsSqrt env variance
    let standardError : JSNum := jsDiv stdDev (jsSqrt env (.val n))
    let tCrit : ℚ := getTCritical (n - 1) 0.05
    let marginOfError : JSNum := jsMul (.val tCrit) standardError
    let median : ℚ :=
      if values.length % 2 = 0 then
        (sorted.getD (values.length / 2 - 1) 0 + sorted.getD (values.length / 2) 0) / 2
      else sorted.getD (values.length / 2) 0
    { min := .val (sorted.getD 0 0),
      max := .val (sorted.getD (values.length - 1) 0),
      average := .val average, stdDev := stdDev, median := .val median,
      standardError := standardError,
      confidenceInterval := { lower := jsSub (.val average) marginOfError,
                              upper := jsAdd (.val average) marginOfError },
      sampleSize := some (.val n) }

/-- The per-group statistics consumed by `calculatePValue` (fields of a
`calculateArrayStats` result, hence possibly NaN). -/
structure GroupStats where
  sampleSize : JSNum
  average : JSNum
  stdDev : JSNum

/-- The Abramowitz–Stegun `erf` approximation from the StressTestManager
(`x >= 0` is false for NaN, so NaN takes the negative-sign branch, and
NaN then propagates through the polynomial). -/
def erf (env : MathEnv) (x0 : JSNum) : JSNum :=
  let a1 : ℚ := 0.254829592
  let a2 : ℚ := -0.284496736
  let a3 : ℚ := 1.421413741
  let a4 : ℚ := -1.453152027
  let a5 : ℚ := 1.061405429
  let p : ℚ := 0.3275911
  let sign : ℚ := if jsGe x0 (.val 0) then 1 else -1
  let x := jsAbs x0
  let t : JSNum := jsDiv (.val 1) (jsAdd (.val 1) (jsMul (.val p) x))
  let poly : JSNum :=
    jsAdd (jsMul (jsAdd (jsMul (jsAdd (jsMul (jsAdd (jsMul (.val a5) t)
      (.val a4)) t) (.val a3)) t) (.val a2)) t) (.val a1)
  let y : JSNum :=
    jsSub (.val 1) (jsMul (jsMul poly t) (jsExp env (jsMul (jsNeg x) x)))
  jsMul (.val sign) y

/-- `normalCDF(x)` from the StressTestManager. -/
def normalCDF (env : MathEnv) (x : JSNum) : JSNum :=
  jsMul (.val (1/2)) (jsAdd (.val 1) (erf env (jsDiv x (jsSqrt env (.val 2)))))

/-- `tCDF(t, df)` from the StressTestManager (`df >= 100` is false for a
NaN df, so the simplified branch is taken there). -/
def tCDF (env : MathEnv) (t df : JSNum) : JSNum :=
  if jsGe df (.val 100) then normalCDF env t
  else
    let x := jsDiv t (jsSqrt env df)
    jsAdd (.val (1/2)) (jsMul (.val (1/2)) (erf env (jsDiv x (jsSqrt env (.val 2)))))

/-- `calculatePValue(group1Stats, group2Stats)` from the
StressTestManager: Welch's t-test with Welch–Satterthwaite degrees of
freedom and the final clamp `Math.max(0.001, Math.min(0.999, p))`.
`Math.pow(v, 2)` is modelled as `v * v`. -/
def calculatePValue (env : MathEnv) (g1 g2 : GroupStats) : JSNum :=
  let n1 := g1.sampleSize
  let n2 := g2.sampleSize
  let mean1 := g1.average
  let mean2 := g2.average
  let var1 := jsMul g1.stdDev g1.stdDev
  let var2 := jsMul g2.stdDev g2.stdDev
  let tStat := jsDiv (jsSub mean1 mean2)
    (jsSqrt env (jsAdd (jsDiv var1 n1) (jsDiv var2 n2)))
  let df := jsDiv
    (jsMul (jsAdd (jsDiv var1 n1) (jsDiv var2 n2))
           (jsAdd (jsDiv var1 n1) (jsDiv var2 n2)))
    (jsAdd (jsDiv (jsMul (jsDiv var1 n1) (jsDiv var1 n1)) (jsSub n1 (.val 1)))
           (jsDiv (jsMul (jsDiv var2 n2) (jsDiv var2 n2)) (jsSub n2 (.val 1))))
  let pValue := jsMul (.val 2) (jsSub (.val 1) (tCDF env (jsAbs tStat) df))
  jsMax (.val 0.001) (jsMin (.val 0.999) pValue)

/-- The interval the spec claims for clamped p-values: a finite value in
[0.001, 0.999]. -/
def inClamp (x : JSNum) : Prop :=
  ∃ q : ℚ, x = .val q ∧ (1/1000 : ℚ) ≤ q ∧ q ≤ 999/1000

/-! ## RunStateStore (system-specs.js)

The store's `_active` field is a JavaScript `Map`, whose iteration order
is insertion order and whose `set` updates an existing key in place
without moving it. It is modelled as an association list with exactly
those semantics. The persisted collection (localStorage under the
well-known key) is modelled as the `records` list, the per-format
latest-record slots as the `latest` association list. Listener callbacks
perform no store-state mutation (exceptions in them are caught at the
dispatch site) and are outside this state model. -/

/-- The progress sub-object of an Active Run. -/
structure ProgressState where
  percentage : ℚ
  message : String
  completedIterations : ℚ
  totalIterations : ℚ
deriving DecidableEq

/-- The zeroed progress written by `registerRun`. -/
def initProgress : ProgressState :=
  { percentage := 0, message := "Starting...",
    completedIterations := 0, totalIterations := 0 }

/-- One Active Run entry of the `_active` map. -/
structure ActiveEntry where
  suiteRunId : String
  format : String
  runId : String
  startTime : String
  progress : ProgressState
deriving DecidableEq

/-- `Map.set` semantics: update an existing key in place (keeping its
insertion position), otherwise append. -/
def mapSet (k : String) (v : ActiveEntry) :
    List (String × ActiveEntry) → List (String × ActiveEntry)
  | [] => [(k, v)]
  | (k', v') :: rest =>
      if k' = k then (k, v) :: rest else (k', v') :: mapSet k v rest

/-- The state of the RunStateStore. -/
structure StoreState where
  active : List (String × ActiveEntry)
  records : List RunRecordJS
  latest : List (String × RunRecordJS)

/-- `registerRun(suiteRunId, format, runId)`: create (or overwrite) the
Active Run entry with zeroed progress. `now` is the environment's
`new Date().toISOString()`. -/
def registerRun (st : StoreState) (suiteRunId format runId now : String) :
    StoreState :=
  let entry : ActiveEntry :=
    { suiteRunId := suiteRunId, format := format, runId := runId,
      startTime := now, progress := initProgress }
  { st with active := mapSet suiteRunId entry st.active }

/-- `getActiveRun(format)`: the first entry in Map iteration (insertion)
order whose format matches, else null. -/
def getActiveRun (st : StoreState) (format : String) : Option ActiveEntry :=
  (st.active.find? (fun p => p.2.format == format)).map (fun p => p.2)

/-- `getAllCompleted()`: the persisted collection. -/
def getAllCompleted (st : StoreState) : List RunRecordJS :=
  st.records

/-- `saveRecord(runRecord)`: append to the persisted collection. -/
def saveRecord (st : StoreState) (r : RunRecordJS) : StoreState :=
  { st with records := st.records ++ [r] }

/-- `_writeLatest(runRecord)`: write the per-format latest slot unless
the record's format is falsy. -/
def writeLatest (st : StoreState) (r : RunRecordJS) : StoreState :=
  if r.format = "" then st
  else { st with latest :=
    (st.latest.filter (fun p => p.1 ≠ r.format)) ++ [(r.format, r)] }

/-- `completeRun(suiteRunId, runRecord)`: delete the Active Run entry (a
missing key is a no-op), append the record via `saveRecord`, and write
the latest-per-format slot. The best-effort Active Run lookup of the
source feeds only the completion-listener notification (format
fallback), which mutates no store state. -/
def completeRun (st : StoreState) (suiteRunId : String) (r : RunRecordJS) :
    StoreState :=
  let st1 : StoreState :=
    { st with active := st.active.filter (fun p => p.1 ≠ suiteRunId) }
  writeLatest (saveRecord st1 r) r

/-! ## RunHandle (run-handle.js) and the SuiteRunner executor tail

The `done` promise is modelled as a one-shot settle state; `_resolve` /
`_reject` after settlement are no-ops, as for a JS promise. -/

/-- `RUN_STATUS` from run-handle.js. -/
inductive RunStatus where
  | pending
  | running
  | completed
  | cancelled
  | error
deriving DecidableEq

/-- The settle state of the `done` promise. -/
inductive DoneState where
  | unsettled
  | resolvedWith (r : RunRecordJS)
  | rejectedWith (e : String)

/-- The observable state of a RunHandle. -/
structure RunHandleState where
  runId : String
  suiteRunId : String
  format : String
  startTime : String
  status : RunStatus
  result : Option RunRecordJS
  doneP : DoneState

/-- The constructor state: a RunHandle starts in `running` status with
no result and an unsettled `done`. -/
def mkRunHandle (runId suiteRunId format now : String) : RunHandleState :=
  { runId := runId, suiteRunId := suiteRunId, format := format,
    startTime := now, status := .running, result := none,
    doneP := .unsettled }

/-- Resolving a promise settles it only if it is still unsettled. -/
def settleResolve (r : RunRecordJS) (d : DoneState) : DoneState :=
  match d with
  | .unsettled => .resolvedWith r
  | _ => d

/-- Rejecting a promise settles it only if it is still unsettled. -/
def settleReject (e : String) (d : DoneState) : DoneState :=
  match d with
  | .unsettled => .rejectedWith e
  | _ => d

/-- `cancel()` from run-handle.js: only a `running` handle moves to
`cancelled` (the wired `cancelFn` sets the manager's stop flag, which
does not touch handle or store state). -/
def RunHandleState.cancel (h : RunHandleState) : RunHandleState :=
  if h.status = .running then { h with status := .cancelled } else h

/-- `_complete(runRecord)` from run-handle.js: store the result, set
status to `completed`, resolve `done`. -/
def RunHandleState.complete (h : RunHandleState) (r : RunRecordJS) :
    RunHandleState :=
  { h with
    result := some r
    status := .completed
    doneP := settleResolve r h.doneP }

/-- `_fail(error)` from run-handle.js: set status to `error` unless the
handle is already `cancelled` — but reject `done` unconditionally. -/
def RunHandleState.fail (h : RunHandleState) (e : String) : RunHandleState :=
  { h with
    status := if h.status = .cancelled then h.status else .error,
    doneP := settleReject e h.doneP }

/-- The outcome of `await manager.startStressTest()` in `_execute`:
either the benchmark finished (with `r` the RunRecord the success path
builds) or it threw. -/
inductive BenchOutcome where
  | success (r : RunRecordJS)
  | failure (e : String)

/-- The tail of `_execute` in suite-runner.js after the benchmark
settles: on failure, `handle._fail(error)`; on success, return early if
the handle was cancelled while the work was in flight, otherwise persist
via `completeRun` and resolve the handle via `_complete`. -/
def executeFinish (outcome : BenchOutcome) (suiteRunId : String)
    (h : RunHandleState) (st : StoreState) : RunHandleState × StoreState :=
  match outcome with
  | .failure e => (h.fail e, st)
  | .success r =>
      if h.status = .cancelled then (h, st)
      else (h.complete r, completeRun st suiteRunId r)

/-! ## Concrete environments shared by witnesses and counterexamples -/

/-- A concrete id-generator environment. -/
def g0 : IdSupply :=
  { trDraw := { ts := "t0", rnd := "aaaaaa" },
    runDraw := { ts := "t0", rnd := "bbbbbb" },
    suiteDraw := { ts := "t0", rnd := "cccccc" } }

/-- A second concrete id-generator environment with a different
testResultId draw. -/
def g1 : IdSupply :=
  { trDraw := { ts := "t1", rnd := "dddddd" },
    runDraw := { ts := "t1", rnd := "eeeeee" },
    suiteDraw := { ts := "t1", rnd := "ffffff" } }

/-- A concrete math environment (the settled claims do not depend on the
values of `Math.sqrt` / `Math.exp` at positive finite arguments). -/
def env0 : MathEnv := { sqrtq := fun _ => 0, expq := fun _ => 0 }

/-- The empty store state. -/
def emptyStore : StoreState := { active := [], records := [], latest := [] }

/-- Group statistics with zero standard deviation and equal means (what
`calculateArrayStats` yields for two identical constant samples of size
two). -/
def gZero : GroupStats :=
  { sampleSize := .val 2, average := .val 5, stdDev := .val 0 }

/-- A concrete RunRecord: the record `createRunRecord` builds from empty
fields under the id supply `g0`. -/
def rec1 : RunRecordJS :=
  { schemaVersion := 2, testResultId := "tr_t0_aaaaaa",
    runId := "run_t0_bbbbbb", suiteRunId := "suite_t0_cccccc",
    format := "css", src := "local", importedFileName := none,
    active := .jbool true, startTime := none, endTime := none,
    durationMs := none, testType := none, iterations := none,
    testDuration := none, results := .jobj [],
    statisticalAnalysis := .jobj [], performanceRanking := .jarr [],
    testMetadata := .jobj [], testConfiguration := .jobj [],
    systemSpecifications := .jobj [] }

/-- A store with one registered Active Run. -/
def st1 : StoreState := registerRun emptyStore "s1" "css" "r1" "t1"

/-- Factory input supplying a non-boolean `active` value. -/
def fX : RunRecFields := { active := some (.jstr "yes") }

/-- The record `createRunRecord g0 fX` returns: the non-boolean `active`
is stored verbatim. -/
def recX : RunRecordJS :=
  { schemaVersion := 2, testResultId := "tr_t0_aaaaaa",
    runId := "run_t0_bbbbbb", suiteRunId := "suite_t0_cccccc",
    format := "css", src := "local", importedFileName := none,
    active := .jstr "yes", startTime := none, endTime := none,
    durationMs := none, testType := none, iterations := none,
    testDuration := none, results := .jobj [],
    statisticalAnalysis := .jobj [], performanceRanking := .jarr [],
    testMetadata := .jobj [], testConfiguration := .jobj [],
    systemSpecifications := .jobj [] }

/-- An imported raw object that already carries a `testResultId`, a
`runId` and a valid format. -/
def rawX : RawRecord :=
  { testResultId := some "tr_old", runId := some "r-keep",
    format := some "png" }

/-! ## Helper lemmas -/

theorem mkId_ne_empty (pfx : String) (d : IdDraw) : mkId pfx d ≠ "" := by
  intro hc
  have hlen := congrArg String.length hc
  have hu : ("_" : String).length = 1 := rfl
  simp [mkId, String.length_append, hu] at hlen

theorem generateRunId_ne_empty (g : IdSupply) : generateRunId g ≠ "" :=
  mkId_ne_empty _ _

theorem generateSuiteRunId_ne_empty (g : IdSupply) : generateSuiteRunId g ≠ "" :=
  mkId_ne_empty _ _

theorem generateTestResultId_ne_empty (g : IdSupply) :
    generateTestResultId g ≠ "" :=
  mkId_ne_empty _ _

theorem strOr_ne_empty (o : Option String) (d : String) (hd : d ≠ "") :
    strOr o d ≠ "" := by
  cases o with
  | none => exact hd
  | some s =>
      simp only [strOr]
      by_cases hse : s = ""
      · rw [if_pos hse]; exact hd
      · rw [if_neg hse]; exact hse

theorem strOr_mkId_ne_empty (o : Option String) (pfx : String) (d : IdDraw) :
    strOr o (mkId pfx d) ≠ "" :=
  strOr_ne_empty _ _ (mkId_ne_empty _ _)

theorem strOr_some_of_ne (s d : String) (h : s ≠ "") : strOr (some s) d = s := by
  simp [strOr, h]

theorem strOrNull_some_of_ne (s : String) (h : s ≠ "") :
    strOrNull (some s) = some s := by
  simp [strOrNull, h]

theorem strTruthy_strOrNull (o : Option String) :
    strTruthy (strOrNull o) = strTruthy o := by
  cases o with
  | none => rfl
  | some s =>
      by_cases hse : s = ""
      · simp [strOrNull, strTruthy, hse]
      · simp [strOrNull, strTruthy, hse]

theorem strOr_strOrNull (o : Option String) (d : String) :
    strOr (strOrNull o) d = strOr o d := by
  cases o with
  | none => rfl
  | some s =>
      by_cases hse : s = ""
      · simp [strOrNull, strOr, hse]
      · simp [strOrNull, strOr, hse]

theorem mapSet_of_keys_ne (k : String) (v : ActiveEntry)
    (l : List (String × ActiveEntry)) (h : ∀ p ∈ l, p.1 ≠ k) :
    mapSet k v l = l ++ [(k, v)] := by
  induction l with
  | nil => rfl
  | cons hd tl ih =>
      obtain ⟨k', v'⟩ := hd
      have hk : k' ≠ k := h (k', v') (List.mem_cons_self _ _)
      simp only [mapSet, List.cons_append]
      rw [if_neg hk, ih (fun p hp => h p (List.mem_cons_of_mem _ hp))]

theorem find?_append_none {α : Type} (p : α → Bool) (l1 l2 : List α)
    (h : l1.find? p = none) :
    (l1 ++ l2).find? p = l2.find? p := by
  induction l1 with
  | nil => rfl
  | cons hd tl ih =>
      rw [List.cons_append]
      cases hp : p hd with
      | true =>
          rw [List.find?_cons_of_pos _ hp] at h
          exact Option.noConfusion h
      | false =>
          rw [List.find?_cons_of_neg _ (by simp [hp])] at h
          rw [List.find?_cons_of_neg _ (by simp [hp])]
          exact ih h

/-- Under the claim C4 format hypothesis, the format guard of the
normalizer evaluates to false. -/
theorem normalize_guard_false (raw : RawRecord)
    (hfmt : strTruthy raw.format = false ∨ strOr raw.format "" ∈ VALID_FORMATS) :
    (strTruthy (strOrNull raw.format)
      && !(VALID_FORMATS.contains (strOr (strOrNull raw.format) ""))) = false := by
  rcases hfmt with hf | hin
  · simp [strTruthy_strOrNull, hf]
  · cases ht : strTruthy raw.format with
    | false => simp [strTruthy_strOrNull, ht]
    | true => simp [strTruthy_strOrNull, ht, strOr_strOrNull, hin]

/-- Shared field evaluation for a successful `normalizeImportedRecord`
call: source forced, file name stamped, testResultId freshly minted,
runId and suiteRunId preserved when truthy and minted otherwise. -/
theorem normalize_fields (g : IdSupply) (raw : RawRecord) (fileName : String)
    (hfmt : strTruthy raw.format = false ∨ strOr raw.format "" ∈ VALID_FORMATS)
    (hfn : fileName ≠ "") :
    (normalizeImportedRecord g raw fileName).map RunRecordJS.src = .ok "imported" ∧
    (normalizeImportedRecord g raw fileName).map RunRecordJS.importedFileName =
      .ok (some fileName) ∧
    (normalizeImportedRecord g raw fileName).map RunRecordJS.testResultId =
      .ok (generateTestResultId g) ∧
    (normalizeImportedRecord g raw fileName).map RunRecordJS.runId =
      .ok (strOr raw.runId (generateRunId g)) ∧
    (normalizeImportedRecord g raw fileName).map RunRecordJS.suiteRunId =
      .ok (strOr raw.suiteRunId (generateSuiteRunId g)) := by
  have hg1 := normalize_guard_false raw hfmt
  have hg2 : (strTruthy (some "imported")
      && !(VALID_SOURCES.contains (strOr (some "imported") ""))) = false := by
    decide
  refine ⟨?_, ?_, ?_, ?_, ?_⟩ <;>
  · simp only [normalizeImportedRecord, createRunRecord]
    rw [hg1, hg2]
    simp [Except.map, strOr_some_of_ne, strOrNull_some_of_ne, strOr_ne_empty,
      generateTestResultId_ne_empty, generateRunId_ne_empty,
      generateSuiteRunId_ne_empty, hfn]

/-- The final clamp of `calculatePValue` yields NaN or a finite value in
the claimed interval, whatever the unclamped p-value is. -/
theorem clamp_nan_or_inClamp (z : JSNum) :
    jsMax (.val 0.001) (jsMin (.val 0.999) z) = .nan ∨
    inClamp (jsMax (.val 0.001) (jsMin (.val 0.999) z)) := by
  cases z with
  | nan => left; rfl
  | inf =>
      right
      refine ⟨999/1000, ?_, by norm_num, by norm_num⟩
      show jsMax (.val 0.001) (.val 0.999) = _
      norm_num [jsMax]
  | ninf =>
      right
      refine ⟨1/1000, ?_, by norm_num, by norm_num⟩
      show jsMax (.val 0.001) .ninf = _
      norm_num [jsMax]
  | val q =>
      right
      refine ⟨max 0.001 (min 0.999 q), ?_, ?_, ?_⟩
      · norm_num [jsMin, jsMax]
      · norm_num
      · refine max_le (by norm_num) ?_
        calc min (0.999 : ℚ) q ≤ 0.999 := min_le_left _ _
        _ ≤ 999/1000 := by norm_num

/-! ## Claim theorems -/

/-- C1 (counterexample): the claim says that after `cancel()` on a
running handle a subsequent throw of the underlying operation does NOT
reject `done`. In the code, `_fail` guards only the status update, not
the rejection: cancelling a freshly constructed running handle and then
finishing with a failure leaves `done` rejected with that very error. -/
theorem C1_counterexample :
    (executeFinish (.failure "boom") "s1"
        ((mkRunHandle "r1" "s1" "css" "t").cancel) emptyStore).1.doneP =
      .rejectedWith "boom" := rfl

/-- C1 (amended): if `cancel()` is called while the handle is running and
the underlying operation subsequently throws, the status stays
`cancelled` (it is not overwritten to `error`), but the `done` promise IS
rejected with that error. -/
theorem C1_cancel_then_failure (h : RunHandleState) (st : StoreState)
    (s e : String)
    (hrun : h.status = .running) (hdone : h.doneP = .unsettled) :
    (executeFinish (.failure e) s h.cancel st).1.status = .cancelled ∧
    (executeFinish (.failure e) s h.cancel st).1.doneP = .rejectedWith e := by
  simp [executeFinish, RunHandleState.cancel, RunHandleState.fail, hrun, hdone,
    settleReject]

/-- C1 (witness): the amended theorem evaluated on a concrete running
handle. -/
theorem C1_cancel_then_failure_witness :
    (executeFinish (.failure "boom") "s1"
        ((mkRunHandle "r1" "s1" "css" "t").cancel) emptyStore).1.status =
      .cancelled ∧
    (executeFinish (.failure "boom") "s1"
        ((mkRunHandle "r1" "s1" "css" "t").cancel) emptyStore).1.doneP =
      .rejectedWith "boom" :=
  C1_cancel_then_failure (mkRunHandle "r1" "s1" "css" "t") emptyStore "s1"
    "boom" rfl rfl

/-- C2: calling `cancel()` on a running handle sets the status to
`cancelled` synchronously, and the subsequent internal completion attempt
(the success tail of `_execute`) leaves handle and store completely
unchanged — in particular the status is not overwritten to `completed`. -/
theorem C2_cancel_final (h : RunHandleState) (st : StoreState) (s : String)
    (r : RunRecordJS) (hrun : h.status = .running) :
    h.cancel.status = .cancelled ∧
    executeFinish (.success r) s h.cancel st = (h.cancel, st) ∧
    (executeFinish (.success r) s h.cancel st).1.status = .cancelled := by
  simp [RunHandleState.cancel, executeFinish, hrun]

/-- C2 (witness): the theorem evaluated on a concrete running handle and
the empty store. -/
theorem C2_cancel_final_witness :
    (mkRunHandle "r1" "s1" "css" "t").cancel.status = .cancelled ∧
    executeFinish (.success rec1) "s1" (mkRunHandle "r1" "s1" "css" "t").cancel
        emptyStore =
      ((mkRunHandle "r1" "s1" "css" "t").cancel, emptyStore) ∧
    (executeFinish (.success rec1) "s1" (mkRunHandle "r1" "s1" "css" "t").cancel
        emptyStore).1.status = .cancelled :=
  C2_cancel_final (mkRunHandle "r1" "s1" "css" "t") emptyStore "s1" rec1 rfl

/-- C3 (counterexample): registering two Active Runs with the same format
and distinct suiteRunIds, `getActiveRun` returns the FIRST-registered
entry ("s1"), not the most recently registered one ("s2"): Map iteration
is insertion-ordered and the lookup returns the first match. -/
theorem C3_counterexample :
    (getActiveRun (registerRun (registerRun emptyStore "s1" "css" "r1" "t1")
        "s2" "css" "r2" "t2") "css").map ActiveEntry.suiteRunId = some "s1" ∧
    ("s1" : String) ≠ "s2" :=
  ⟨rfl, by decide⟩

/-- C3 (amended): when two runs of the same format with distinct, fresh
suiteRunIds are registered into a store with no other run of that format,
`getActiveRun` returns the FIRST-registered matching entry
(first-registered-wins). -/
theorem C3_first_registered_wins (st : StoreState)
    (s1 s2 f r1 r2 t1 t2 : String)
    (hne : s1 ≠ s2)
    (hf : ∀ p ∈ st.active, p.2.format ≠ f)
    (hk1 : ∀ p ∈ st.active, p.1 ≠ s1)
    (hk2 : ∀ p ∈ st.active, p.1 ≠ s2) :
    getActiveRun (registerRun (registerRun st s1 f r1 t1) s2 f r2 t2) f =
      some { suiteRunId := s1, format := f, runId := r1, startTime := t1,
             progress := initProgress } := by
  have h1 : mapSet s1 ⟨s1, f, r1, t1, initProgress⟩ st.active
      = st.active ++ [(s1, ⟨s1, f, r1, t1, initProgress⟩)] :=
    mapSet_of_keys_ne _ _ _ hk1
  have h2 : mapSet s2 ⟨s2, f, r2, t2, initProgress⟩
        (st.active ++ [(s1, ⟨s1, f, r1, t1, initProgress⟩)])
      = (st.active ++ [(s1, ⟨s1, f, r1, t1, initProgress⟩)])
          ++ [(s2, ⟨s2, f, r2, t2, initProgress⟩)] := by
    apply mapSet_of_keys_ne
    intro p hp
    rcases List.mem_append.mp hp with hin | hin
    · exact hk2 p hin
    · simp only [List.mem_singleton] at hin
      subst hin
      exact hne
  have hnone : st.active.find? (fun p => p.2.format == f) = none := by
    apply List.find?_eq_none.mpr
    intro x hx
    simp only [beq_iff_eq]
    exact hf x hx
  unfold getActiveRun registerRun
  simp only []
  rw [h1, h2, List.append_assoc]
  rw [find?_append_none _ _ _ hnone]
  rw [List.singleton_append]
  rw [List.find?_cons_of_pos _ (by simp)]
  rfl

/-- C3 (witness): the amended theorem evaluated on the empty store with
two concrete same-format registrations. -/
theorem C3_first_registered_wins_witness :
    getActiveRun (registerRun (registerRun emptyStore "s1" "css" "r1" "t1")
        "s2" "css" "r2" "t2") "css" =
      some { suiteRunId := "s1", format := "css", runId := "r1",
             startTime := "t1", progress := initProgress } :=
  C3_first_registered_wins emptyStore "s1" "s2" "css" "r1" "r2" "t1" "t2"
    (by decide) (by simp [emptyStore]) (by simp [emptyStore])
    (by simp [emptyStore])

/-- C4 (counterexample): `normalizeImportedRecord` does not return a
record for EVERY raw input: a raw object whose truthy `format` is outside
the valid enumeration makes the delegated `createRunRecord` call throw
its validation error instead. -/
theorem C4_counterexample :
    normalizeImportedRecord g0 { format := some "bmp" } "f.json" =
      .error
        "Invalid format: bmp. Must be one of: css, svg, png, gif, jpeg, webp, avif" :=
  rfl

/-- C4 (amended): for every raw object whose `format` is absent, falsy or
one of the valid formats, and every nonempty file name,
`normalizeImportedRecord` returns a record with source "imported" and
`importedFileName = fileName`, preserves a truthy `raw.runId` /
`raw.suiteRunId` (minting them otherwise), and always mints a fresh
`testResultId` — ignoring any `testResultId` already in `raw` — so two
calls whose id-generator draws differ yield records with different
`testResultId`s. -/
theorem C4_normalize_imported (g : IdSupply) (raw : RawRecord)
    (fileName : String)
    (hfmt : strTruthy raw.format = false ∨ strOr raw.format "" ∈ VALID_FORMATS)
    (hfn : fileName ≠ "") :
    (normalizeImportedRecord g raw fileName).map RunRecordJS.src = .ok "imported" ∧
    (normalizeImportedRecord g raw fileName).map RunRecordJS.importedFileName =
      .ok (some fileName) ∧
    (normalizeImportedRecord g raw fileName).map RunRecordJS.testResultId =
      .ok (generateTestResultId g) ∧
    (normalizeImportedRecord g raw fileName).map RunRecordJS.runId =
      .ok (strOr raw.runId (generateRunId g)) ∧
    (normalizeImportedRecord g raw fileName).map RunRecordJS.suiteRunId =
      .ok (strOr raw.suiteRunId (generateSuiteRunId g)) ∧
    (∀ g2 : IdSupply, generateTestResultId g ≠ generateTestResultId g2 →
      (normalizeImportedRecord g raw fileName).map RunRecordJS.testResultId ≠
        (normalizeImportedRecord g2 raw fileName).map RunRecordJS.testResultId) := by
  have h1 := normalize_fields g raw fileName hfmt hfn
  refine ⟨h1.1, h1.2.1, h1.2.2.1, h1.2.2.2.1, h1.2.2.2.2, ?_⟩
  intro g2 hne hceq
  have h2 := normalize_fields g2 raw fileName hfmt hfn
  rw [h1.2.2.1, h2.2.2.1] at hceq
  injection hceq with hid
  exact hne hid

/-- C4 (witness): the amended theorem evaluated on a raw object that
already carries a `testResultId` and `runId`; the stored `testResultId`
is the freshly minted one. -/
theorem C4_normalize_imported_witness :
    (normalizeImportedRecord g0 rawX "f.json").map RunRecordJS.testResultId =
      .ok (generateTestResultId g0) :=
  (C4_normalize_imported g0 rawX "f.json" (Or.inr (by decide))
    (by decide)).2.2.1

/-- C5: `createRunRecord` on the empty fields object never throws and
returns a record with schemaVersion 2, active true, source "local", the
sentinel format "css", freshly minted ids and every collection-typed
field equal to its empty container. -/
theorem C5_createRunRecord_defaults (g : IdSupply) :
    createRunRecord g {} = .ok ({
      schemaVersion := 2
      testResultId := generateTestResultId g
      runId := generateRunId g
      suiteRunId := generateSuiteRunId g
      format := "css"
      src := "local"
      importedFileName := none
      active := .jbool true
      startTime := none
      endTime := none
      durationMs := none
      testType := none
      iterations := none
      testDuration := none
      results := .jobj []
      statisticalAnalysis := .jobj []
      performanceRanking := .jarr []
      testMetadata := .jobj []
      testConfiguration := .jobj []
      systemSpecifications := .jobj [] }) := rfl

/-- C6 (counterexample): `createRunRecord` does NOT fail when the
supplied `active` is outside the boolean enumeration: the string "yes"
is accepted and stored verbatim. -/
theorem C6_counterexample :
    createRunRecord g0 fX = .ok recX ∧
    recX.active ≠ .jbool true ∧ recX.active ≠ .jbool false := by
  refine ⟨rfl, ?_, ?_⟩ <;> simp [recX]

/-- C6 (amended): every record returned by `createRunRecord` has `source`
in the enumeration and a supplied truthy `source` outside it fails
construction with the validation error, but `active` is never validated:
the record stores exactly the supplied value (defaulting to true only
when absent). -/
theorem C6_source_validated_active_not (g : IdSupply) (fields : RunRecFields)
    (rec : RunRecordJS) (h : createRunRecord g fields = .ok rec) :
    rec.src ∈ VALID_SOURCES ∧
    rec.active = (match fields.active with
      | some v => v
      | none => JVal.jbool true) ∧
    createRunRecord g { fields with src := some "cloud" } =
      .error "Invalid source: cloud. Must be one of: local, imported" := by
  unfold createRunRecord at h
  by_cases hb1 : (strTruthy fields.format
      && !(VALID_FORMATS.contains (strOr fields.format ""))) = true
  · rw [if_pos hb1] at h; exact absurd h (by simp)
  · rw [if_neg hb1] at h
    by_cases hb2 : (strTruthy fields.src
        && !(VALID_SOURCES.contains (strOr fields.src ""))) = true
    · rw [if_pos hb2] at h; exact absurd h (by simp)
    · rw [if_neg hb2] at h
      injection h with hR
      subst hR
      refine ⟨?_, rfl, ?_⟩
      · have hb2f : (strTruthy fields.src
            && !(VALID_SOURCES.contains (strOr fields.src ""))) = false :=
          Bool.eq_false_iff.mpr hb2
        cases hfs : fields.src with
        | none => simp [strOr, VALID_SOURCES]
        | some s =>
            by_cases hse : s = ""
            · simp [strOr, hse, VALID_SOURCES]
            · have hA : strTruthy (some s) = true := by simp [strTruthy, hse]
              rw [hfs] at hb2f
              rw [hA, Bool.true_and] at hb2f
              have hcont : VALID_SOURCES.contains (strOr (some s) "") = true := by
                cases hc : VALID_SOURCES.contains (strOr (some s) "") with
                | true => rfl
                | false => rw [hc] at hb2f; exact absurd hb2f (by simp)
              rw [strOr_some_of_ne _ _ hse] at hcont
              rw [strOr_some_of_ne _ _ hse]
              simpa using hcont
      · show (if (strTruthy fields.format
            && !(VALID_FORMATS.contains (strOr fields.format ""))) = true
            then _ else _) = _
        rw [if_neg hb1]
        have hcloud : (strTruthy (some "cloud")
            && !(VALID_SOURCES.contains (strOr (some "cloud") ""))) = true := by
          decide
        rw [if_pos hcloud]
        show Except.error
            ("Invalid source: " ++ strOr (some "cloud") "" ++
              ". Must be one of: local, imported") = _
        exact congrArg Except.error (by decide)

/-- C6 (witness): the amended theorem evaluated on the concrete input
whose `active` is the string "yes". -/
theorem C6_source_validated_active_not_witness :
    recX.src ∈ VALID_SOURCES ∧
    recX.active = (match fX.active with
      | some v => v
      | none => JVal.jbool true) ∧
    createRunRecord g0 { fX with src := some "cloud" } =
      .error "Invalid source: cloud. Must be one of: local, imported" :=
  C6_source_validated_active_not g0 fX recX rfl

/-- C7 (counterexample): the empty-input record of `calculateArrayStats`
does NOT contain a zero `sampleSize` — the property is absent from the
returned object (reading it yields undefined, not 0). -/
theorem C7_counterexample :
    (calculateArrayStats env0 ([] : List ℚ)).sampleSize = none ∧
    (calculateArrayStats env0 ([] : List ℚ)).sampleSize ≠ some (.val 0) := by
  decide

/-- C7 (amended): for the empty input, `calculateArrayStats` returns —
without throwing and without any NaN — a record whose min, max, average,
stdDev, median, standardError and both confidence-interval bounds are
present and zero, while `sampleSize` is absent (undefined) rather than
present and zero. -/
theorem C7_empty_stats (env : MathEnv) :
    calculateArrayStats env [] =
      { min := .val 0, max := .val 0, average := .val 0, stdDev := .val 0,
        median := .val 0, standardError := .val 0,
        confidenceInterval := { lower := .val 0, upper := .val 0 },
        sampleSize := none } := rfl

/-- C8: `completeRun` appends exactly one record to the persisted
collection and removes the Active Run with the given suiteRunId, so
`getActiveRun` can no longer return it for any format; the statement
holds for EVERY store state — also when no matching Active Run exists
(the modelled operation is total: nothing throws). The hypothesis is the
store invariant, established by `registerRun`, that each Active Run entry
is keyed by its own suiteRunId. -/
theorem C8_completeRun_spec (st : StoreState) (s : String) (r : RunRecordJS)
    (hwf : ∀ p ∈ st.active, p.2.suiteRunId = p.1) :
    getAllCompleted (completeRun st s r) = getAllCompleted st ++ [r] ∧
    (∀ p ∈ (completeRun st s r).active, p.1 ≠ s) ∧
    (∀ f e, getActiveRun (completeRun st s r) f = some e →
      e.suiteRunId ≠ s) := by
  have hact : (completeRun st s r).active
      = st.active.filter (fun p => decide (p.1 ≠ s)) := by
    simp [completeRun, writeLatest, saveRecord, apply_ite StoreState.active]
  have hrec : (completeRun st s r).records = st.records ++ [r] := by
    simp [completeRun, writeLatest, saveRecord, apply_ite StoreState.records]
  refine ⟨hrec, ?_, ?_⟩
  · intro p hp
    rw [hact] at hp
    exact of_decide_eq_true (List.mem_filter.mp hp).2
  · intro f e he
    unfold getActiveRun at he
    rw [hact] at he
    obtain ⟨pr, hfind, hpr⟩ := Option.map_eq_some'.mp he
    have hmem := List.mem_of_find?_eq_some hfind
    have hne : pr.1 ≠ s := of_decide_eq_true (List.mem_filter.mp hmem).2
    have hid : pr.2.suiteRunId = pr.1 := hwf pr (List.mem_filter.mp hmem).1
    rw [← hpr, hid]
    exact hne

/-- C8 (witness): the theorem evaluated on a store holding one registered
Active Run, completed with a concrete record. -/
theorem C8_completeRun_spec_witness :
    getAllCompleted (completeRun st1 "s1" rec1) =
      getAllCompleted st1 ++ [rec1] :=
  (C8_completeRun_spec st1 "s1" rec1
    (by simp [st1, registerRun, emptyStore, mapSet])).1

/-- C9 (counterexample): the Welch p-value is NOT always inside
[0.001, 0.999]: for two groups with zero standard deviation and equal
means the t statistic is the IEEE division 0/0 = NaN, NaN propagates
through the CDF approximation, and `Math.max`/`Math.min` propagate NaN
through the clamp, so the returned p-value is NaN. -/
theorem C9_counterexample :
    calculatePValue env0 gZero gZero = .nan ∧
    ¬ inClamp (calculatePValue env0 gZero gZero) := by
  have hnan : calculatePValue env0 gZero gZero = .nan := by
    norm_num [calculatePValue, tCDF, normalCDF, erf, jsMul, jsDiv, jsAdd, jsSub,
      jsNeg, jsSqrt, jsGe, jsAbs, jsExp, jsMin, jsMax, gZero, env0]
  refine ⟨hnan, ?_⟩
  intro hcontra
  obtain ⟨q, hq, _, _⟩ := hcontra
  rw [hnan] at hq
  exact JSNum.noConfusion hq

/-- C9 (amended): for every pair of group statistics, the value returned
by `calculatePValue` is either NaN (when the Welch computation produces
NaN, which the clamp propagates) or a finite value in [0.001, 0.999]. -/
theorem C9_pvalue_clamped_or_nan (env : MathEnv) (g1 g2 : GroupStats) :
    calculatePValue env g1 g2 = .nan ∨
    inClamp (calculatePValue env g1 g2) :=
  clamp_nan_or_inClamp _

/-- C10: for a one-element input, `calculateArrayStats` divides the
sample variance by n − 1 = 0 (the IEEE division 0/0), so stdDev,
standardError and both confidence-interval bounds are NaN, while min,
max, average and median equal the single element and sampleSize is 1. -/
theorem C10_singleton_stats (env : MathEnv) (x : ℚ) :
    calculateArrayStats env [x] =
      { min := .val x, max := .val x, average := .val x, stdDev := .nan,
        median := .val x, standardError := .nan,
        confidenceInterval := { lower := .nan, upper := .nan },
        sampleSize := some (.val 1) } := by
  have hs : [x].mergeSort (fun a b => decide (a ≤ b)) = [x] :=
    List.mergeSort_of_sorted (by simp)
  simp [calculateArrayStats, hs, jsDiv, jsSqrt, jsMul, jsAdd, jsSub, jsNeg]

end IconBench
